import Mathlib

/-!
Verification of `src/tools/test-connection.py` from mcp-ssh-manager.

The script is a CLI wrapper: it constructs an `SSHServerManager` (an external
collaborator whose code is not part of this fragment), and

* if `len(sys.argv) < 2`, prints a usage line, a blank line, the header
  `Available servers:` and one `  - <name>` line per registry key (in the
  registry's native enumeration order), then calls `sys.exit(1)`;
* otherwise calls `manager.test_connection(sys.argv[1])` and calls
  `sys.exit(0 if success else 1)`.

The collaborator is modelled abstractly: the registry is represented by its
key sequence in native enumeration order (the configurations attached to the
keys are opaque to this component, which only reads the keys), and
`test_connection` by a boolean-valued function.  The script's observable
behaviour is captured as a trace of effects (lines printed, registry-key
enumeration, connection-test calls, and the registry-writing effects the
script could have performed but does not) together with a process outcome.
All functions are total, which encodes the claims' standing assumption that
the collaborator's constructor and test operation return rather than raise.
-/

namespace TestConnection

/-- Modelled from the spec: the external collaborator `SSHServerManager`
(file `server_manager.py`, not among the provided sources) is opaque to this
fragment and exposes two operations — enumerate configured servers and test
connectivity to a named server returning a boolean.  `servers` is the
registry's key sequence in its native enumeration order (Python `dict`
keys; configurations are opaque and unused here), and `test_connection` is
the connection test. -/
structure SSHServerManager where
  servers : List String
  test_connection : String → Bool

/-- One observable effect of a run: a line written to standard output, a
read of the registry's key set, a call of the collaborator's connection
test, or a write to the registry (creation/overwrite or deletion of an
entry) — the last two are in the vocabulary so that their absence from
every trace is a statement, not a tautology of the model. -/
inductive Effect where
  | printLine (line : String)
  | enumKeys
  | testConn (name : String)
  | setEntry (name : String)
  | delEntry (name : String)
deriving DecidableEq, Repr

/-- How a run of the script ends: an explicit `sys.exit(code)`, or falling
off the end of `main` back to the caller. -/
inductive Outcome where
  | exited (code : Nat)
  | returned
deriving DecidableEq, Repr

/-- The observable result of one run: the sequence of effects performed and
the way the process terminated. -/
structure RunResult where
  trace : List Effect
  outcome : Outcome
deriving DecidableEq, Repr

/-- Shallow embedding of `main` in `src/tools/test-connection.py`.
`argv` models `sys.argv`, so `argv.getD 0 ""` is the program name and the
first positional argument is `argv.getD 1 ""`.  Python's
`print("\nAvailable servers:")` emits a blank line followed by the header,
hence two `printLine` effects. -/
def main (manager : SSHServerManager) (argv : List String) : RunResult :=
  if argv.length < 2 then
    { trace := [Effect.printLine "Usage: python test-connection.py <server_name>",
                Effect.printLine "",
                Effect.printLine "Available servers:",
                Effect.enumKeys]
               ++ manager.servers.map (fun server => Effect.printLine ("  - " ++ server)),
      outcome := Outcome.exited 1 }
  else
    let server_name := argv.getD 1 ""
    let success := manager.test_connection server_name
    { trace := [Effect.testConn server_name],
      outcome := Outcome.exited (if success then 0 else 1) }

/-- The lines a run wrote to standard output, in order. -/
def stdoutLines (r : RunResult) : List String :=
  r.trace.filterMap fun e =>
    match e with
    | Effect.printLine l => some l
    | _ => none

/-- The arguments of the connection-test calls a run made, in order. -/
def testCalls (r : RunResult) : List String :=
  r.trace.filterMap fun e =>
    match e with
    | Effect.testConn n => some n
    | _ => none

/-- How many times a run enumerated the registry's keys. -/
def enumCalls (r : RunResult) : Nat :=
  (r.trace.filter fun e =>
    match e with
    | Effect.enumKeys => true
    | _ => false).length

/-- Interpretation of one effect on the registry's key sequence: writes
change it, reads and prints leave it unchanged. -/
def applyEffect (reg : List String) (e : Effect) : List String :=
  match e with
  | Effect.setEntry n => if n ∈ reg then reg else reg ++ [n]
  | Effect.delEntry n => reg.erase n
  | _ => reg

/-- Interpretation of a whole trace on the registry's key sequence. -/
def applyTrace (reg : List String) (tr : List Effect) : List String :=
  tr.foldl applyEffect reg

/-- Concrete collaborator used to evaluate the theorems: registry with keys
`prod` and `staging`, connection test succeeding exactly on `prod`. -/
def mgrA : SSHServerManager :=
  { servers := ["prod", "staging"], test_connection := fun s => s == "prod" }

/-- A second, definitionally separate copy of `mgrA`. -/
def mgrB : SSHServerManager :=
  { servers := ["prod", "staging"], test_connection := fun s => s == "prod" }

/-! ## Helper lemmas -/

theorem bullet_data (s : String) :
    ("  - " ++ s).data = ' ' :: ' ' :: '-' :: ' ' :: s.data := by
  simp [String.data_append]

theorem bullet_head (s : String) : ("  - " ++ s).data.head? = some ' ' := by
  rw [bullet_data]; rfl

theorem bullet_ne_of_head (s t : String) (h : t.data.head? ≠ some ' ') :
    ("  - " ++ s) ≠ t := by
  intro he
  exact h (he ▸ bullet_head s)

theorem bullet_injective : Function.Injective (fun s : String => "  - " ++ s) := by
  intro s t h
  have h2 : ("  - " ++ s).data = ("  - " ++ t).data := congrArg String.data h
  rw [bullet_data, bullet_data] at h2
  simp only [List.cons.injEq, true_and] at h2
  cases s; cases t
  exact congrArg String.mk h2

theorem count_bullet_map (s : String) (l : List String) :
    List.count ("  - " ++ s) (l.map fun x => "  - " ++ x) = List.count s l := by
  induction l with
  | nil => rfl
  | cons a tl ih =>
      rw [List.map_cons, List.count_cons, List.count_cons, ih]
      by_cases hs : a = s
      · subst hs; simp
      · have hb : ¬ ("  - " ++ a = "  - " ++ s) :=
          fun hc => hs (bullet_injective hc)
        simp [hs, hb]

theorem count_eq_one_of_nodup_mem (s : String) (l : List String)
    (hnd : l.Nodup) (hs : s ∈ l) : List.count s l = 1 := by
  induction l with
  | nil => cases hs
  | cons a tl ih =>
      rw [List.count_cons]
      rcases List.mem_cons.mp hs with rfl | hmem
      · have hnotin : s ∉ tl := (List.nodup_cons.mp hnd).1
        have hz : List.count s tl = 0 := List.count_eq_zero.mpr hnotin
        simp [hz]
      · have h1 : a ≠ s := by
          rintro rfl
          exact (List.nodup_cons.mp hnd).1 hmem
        rw [ih (List.nodup_cons.mp hnd).2 hmem]
        simp [h1]

theorem filterMap_print_map (g : String → String) (l : List String) :
    List.filterMap
      (fun e => match e with | Effect.printLine s => some s | _ => none)
      (l.map fun s => Effect.printLine (g s)) = l.map g := by
  induction l with
  | nil => rfl
  | cons a tl ih =>
      show g a :: List.filterMap _ _ = g a :: tl.map g
      rw [ih]

theorem filterMap_test_map (g : String → String) (l : List String) :
    List.filterMap
      (fun e => match e with | Effect.testConn n => some n | _ => none)
      (l.map fun s => Effect.printLine (g s)) = [] := by
  induction l with
  | nil => rfl
  | cons a tl ih =>
      show List.filterMap _ _ = ([] : List String)
      exact ih

/-- On the missing-argument path, the lines written to standard output are
the usage line, a blank line, the header, and one bulleted line per
registry key, in registry order. -/
theorem stdout_missing (m : SSHServerManager) (argv : List String)
    (h : argv.length < 2) :
    stdoutLines (main m argv) =
      "Usage: python test-connection.py <server_name>" :: "" ::
        "Available servers:" :: m.servers.map (fun s => "  - " ++ s) := by
  simp only [main, if_pos h, stdoutLines, List.cons_append, List.nil_append,
    List.filterMap_cons]
  exact congrArg _ (congrArg _ (congrArg _ (filterMap_print_map _ _)))

/-- On the missing-argument path, no connection test is made. -/
theorem testCalls_missing (m : SSHServerManager) (argv : List String)
    (h : argv.length < 2) : testCalls (main m argv) = [] := by
  simp only [main, if_pos h, testCalls, List.cons_append, List.nil_append,
    List.filterMap_cons]
  exact filterMap_test_map _ _

/-- A trace of effects that each leave the registry unchanged leaves the
registry unchanged as a whole. -/
theorem applyTrace_of_readonly (reg : List String) (tr : List Effect)
    (h : ∀ e ∈ tr, ∀ r, applyEffect r e = r) : applyTrace reg tr = reg := by
  induction tr generalizing reg with
  | nil => rfl
  | cons e tl ih =>
      have h1 : applyEffect reg e = reg := h e (List.mem_cons_self e tl) reg
      have h2 : ∀ x ∈ tl, ∀ r, applyEffect r x = r :=
        fun x hx => h x (List.mem_cons_of_mem e hx)
      show applyTrace (applyEffect reg e) tl = reg
      rw [h1]
      exact ih reg h2

/-! ## Claims -/

/-- C1: for every invocation supplying at least one positional argument,
the process exit code is 0 if the collaborator's `test_connection` applied
to the first positional argument returns true, and 1 if it returns false;
no other exit codes arise on this path. -/
theorem C1_exit_code_from_test (m : SSHServerManager) (argv : List String)
    (h : 2 ≤ argv.length) :
    (main m argv).outcome =
      Outcome.exited (if m.test_connection (argv.getD 1 "") then 0 else 1) := by
  have h' : ¬ argv.length < 2 := by omega
  simp [main, h']

/-- Witness for C1 at a concrete manager and argument list. -/
theorem C1_exit_code_from_test_witness :
    (main mgrA ["test-connection.py", "prod"]).outcome = Outcome.exited 0 := by
  rw [C1_exit_code_from_test mgrA ["test-connection.py", "prod"] (by decide)]
  decide

/-- C2: for every invocation with zero positional arguments, the process
exits with code 1, the collaborator's test operation is not invoked, and
standard output contains every server name currently in the registry
exactly once (as a bulleted line; registry keys are distinct, being keys of
a mapping). -/
theorem C2_missing_argument (m : SSHServerManager) (argv : List String)
    (h : argv.length < 2) (hnd : m.servers.Nodup) :
    (main m argv).outcome = Outcome.exited 1 ∧
      testCalls (main m argv) = [] ∧
      ∀ s ∈ m.servers, (stdoutLines (main m argv)).count ("  - " ++ s) = 1 := by
  refine ⟨by simp [main, h], testCalls_missing m argv h, ?_⟩
  intro s hs
  rw [stdout_missing m argv h]
  rw [List.count_cons_of_ne (bullet_ne_of_head s _ (by decide)),
    List.count_cons_of_ne (bullet_ne_of_head s _ (by decide)),
    List.count_cons_of_ne (bullet_ne_of_head s _ (by decide))]
  rw [count_bullet_map s m.servers]
  exact count_eq_one_of_nodup_mem s m.servers hnd hs

/-- Witness for C2 at a concrete manager with registry keys `prod` and
`staging`. -/
theorem C2_missing_argument_witness :
    (main mgrA ["test-connection.py"]).outcome = Outcome.exited 1 ∧
      testCalls (main mgrA ["test-connection.py"]) = [] ∧
      (stdoutLines (main mgrA ["test-connection.py"])).count "  - prod" = 1 ∧
      (stdoutLines (main mgrA ["test-connection.py"])).count "  - staging" = 1 := by
  obtain ⟨h1, h2, h3⟩ :=
    C2_missing_argument mgrA ["test-connection.py"] (by decide) (by decide)
  exact ⟨h1, h2, h3 "prod" (by decide), h3 "staging" (by decide)⟩

/-- C3: with at least one positional argument, the name passed to the
collaborator's test operation is exactly the first positional argument —
with no local validation against the registry, since the statement holds
for every manager regardless of whether the name is a registry key — and a
false test result yields exit code 1 whether the name is unknown or the
connection failed. -/
theorem C3_name_passed_through (m : SSHServerManager) (argv : List String)
    (h : 2 ≤ argv.length) :
    testCalls (main m argv) = [argv.getD 1 ""] ∧
      (m.test_connection (argv.getD 1 "") = false →
        (main m argv).outcome = Outcome.exited 1) := by
  have h' : ¬ argv.length < 2 := by omega
  constructor
  · simp [main, h', testCalls]
  · intro hf
    simp only [main, if_neg h']
    rw [hf]
    rfl

/-- Witness for C3 with a name absent from the registry. -/
theorem C3_name_passed_through_witness :
    testCalls (main mgrA ["test-connection.py", "unknown"]) = ["unknown"] ∧
      (main mgrA ["test-connection.py", "unknown"]).outcome = Outcome.exited 1 := by
  obtain ⟨h1, h2⟩ :=
    C3_name_passed_through mgrA ["test-connection.py", "unknown"] (by decide)
  exact ⟨h1, h2 (by decide)⟩

/-- C4: every execution of the entry point (the model assumes the
collaborator's constructor and test operation return rather than raise)
terminates via an explicit exit with status 0 or 1; `main` never returns
normally to a caller. -/
theorem C4_always_exits (m : SSHServerManager) (argv : List String) :
    (main m argv).outcome ≠ Outcome.returned ∧
      ∃ c, (main m argv).outcome = Outcome.exited c ∧ (c = 0 ∨ c = 1) := by
  by_cases h : argv.length < 2
  · exact ⟨by simp [main, h], 1, by simp [main, h], Or.inr rfl⟩
  · refine ⟨by simp [main, h], if m.test_connection (argv.getD 1 "") then 0 else 1,
      by simp [main, h], ?_⟩
    by_cases ht : m.test_connection (argv.getD 1 "") <;> simp [ht]

/-- C5 as stated is false: standard output on the missing-argument path
does not consist of just the usage line followed by the bulleted server
names — a blank line and an `Available servers:` header stand between
them.  With registry keys `prod` and `staging`, the output has five lines,
not three. -/
theorem C5_counterexample :
    stdoutLines (main mgrA ["test-connection.py"]) ≠
      "Usage: python test-connection.py <server_name>" ::
        mgrA.servers.map (fun s => "  - " ++ s) := by
  decide

/-- C5 amended: on the missing-argument path, standard output consists of
a usage line, a blank line, and an `Available servers:` header, followed
by the list of known server names, one name per line, each prefixed by the
string `"  - "`. -/
theorem C5_amended_output_shape (m : SSHServerManager) (argv : List String)
    (h : argv.length < 2) :
    stdoutLines (main m argv) =
      ["Usage: python test-connection.py <server_name>", "",
        "Available servers:"] ++ m.servers.map (fun s => "  - " ++ s) :=
  stdout_missing m argv h

/-- Witness for the amended C5 at a concrete manager. -/
theorem C5_amended_output_shape_witness :
    stdoutLines (main mgrA ["test-connection.py"]) =
      ["Usage: python test-connection.py <server_name>", "",
        "Available servers:", "  - prod", "  - staging"] := by
  rw [C5_amended_output_shape mgrA ["test-connection.py"] (by decide)]
  decide

/-- C6: on the missing-argument path, the server names are printed in the
registry's native enumeration order: after the three fixed lines, the
output lines are exactly the registry's key sequence mapped to bulleted
lines, with no sorting or reordering. -/
theorem C6_registry_order (m : SSHServerManager) (argv : List String)
    (h : argv.length < 2) :
    (stdoutLines (main m argv)).drop 3 =
      m.servers.map (fun s => "  - " ++ s) := by
  rw [stdout_missing m argv h]
  rfl

/-- Witness for C6: a registry deliberately not in sorted order is printed
in its own order. -/
theorem C6_registry_order_witness :
    (stdoutLines (main ⟨["zeta", "alpha"], fun _ => false⟩
        ["test-connection.py"])).drop 3 = ["  - zeta", "  - alpha"] := by
  rw [C6_registry_order ⟨["zeta", "alpha"], fun _ => false⟩
    ["test-connection.py"] (by decide)]
  decide

/-- C7: two invocations with the same argument list and the same
collaborator state (same registry key sequence and pointwise-equal
`test_connection` results) produce the same exit outcome. -/
theorem C7_deterministic (m₁ m₂ : SSHServerManager) (argv : List String)
    (hs : m₁.servers = m₂.servers)
    (ht : ∀ s, m₁.test_connection s = m₂.test_connection s) :
    (main m₁ argv).outcome = (main m₂ argv).outcome := by
  obtain ⟨s₁, t₁⟩ := m₁
  obtain ⟨s₂, t₂⟩ := m₂
  simp only at hs ht
  subst hs
  rw [funext ht]

/-- Witness for C7: two definitionally separate managers with equal state
give the same outcome. -/
theorem C7_deterministic_witness :
    (main mgrA ["test-connection.py", "prod"]).outcome =
      (main mgrB ["test-connection.py", "prod"]).outcome :=
  C7_deterministic mgrA mgrB ["test-connection.py", "prod"] rfl (fun _ => rfl)

/-- C8: the entry point never creates, mutates, or destroys a registry
entry: interpreting the run's whole effect trace on the registry's key
sequence leaves it unchanged, on both paths (the trace records the opaque
collaborator reads, which do not write). -/
theorem C8_registry_unchanged (m : SSHServerManager) (argv : List String) :
    applyTrace m.servers (main m argv).trace = m.servers := by
  apply applyTrace_of_readonly
  intro e he r
  by_cases h : argv.length < 2
  · simp only [main, if_pos h, List.cons_append, List.nil_append,
      List.mem_cons, List.mem_map] at he
    rcases he with rfl | rfl | rfl | rfl | ⟨s, _, rfl⟩ <;> rfl
  · simp only [main, if_neg h, List.mem_cons, List.not_mem_nil,
      or_false] at he
    rw [he]
    rfl

/-- C9: arguments after the first positional argument are ignored — the
whole observable run (effect trace and outcome) with extra arguments
equals the run with only the first positional argument. -/
theorem C9_extra_arguments_ignored (m : SSHServerManager)
    (prog name : String) (rest : List String) :
    main m (prog :: name :: rest) = main m (prog :: name :: []) := by
  simp [main]

/-- C10: in every run, the connection test is called at most once (exactly
once with an argument present, never without), the registry keys are
enumerated only on the missing-argument path (exactly once there, never
otherwise), and the two collaborator operations are never both invoked in
one run. -/
theorem C10_collaborator_calls (m : SSHServerManager) (argv : List String) :
    (testCalls (main m argv)).length = (if argv.length < 2 then 0 else 1) ∧
      enumCalls (main m argv) = (if argv.length < 2 then 1 else 0) := by
  by_cases h : argv.length < 2
  · refine ⟨by rw [testCalls_missing m argv h]; simp [h], ?_⟩
    simp only [main, if_pos h, enumCalls, List.cons_append, List.nil_append,
      List.filter_cons, List.filter_map]
    simp [Function.comp, List.filter_eq_nil_iff]
  · simp [main, h, testCalls, enumCalls]

end TestConnection
